import Mathlib

/-!
Verification development for the `breyer/tat` repository: a CSV-to-SQLite
trade-plan synchronizer (`tradeplan2db3.py`, modelled from its documentation)
and the `TAT_EMA520` heatmap analysis notebooks (embedded from the notebook
code in `TAT_EMA520_V3.ipynb` / `TAT_EMA520_V5.ipynb`).
-/

namespace Tat

/-! ### Trade-plan synchronizer: data model

Modelled from the spec: the Python script `tradeplan2db3.py` is not part of
the source tree (only its READMEs are), so the definitions in this section
follow the spec and the `tradeplan2db3` README: CSV columns `Hour:Minute`,
`Premium`, `Spread`, `Stop`, `Strategy`, `Plan` (optional, default `P1`),
`Qty` (optional when `--qty` is given), `profittarget`, `OptionType`,
`PnL Rank`; database tables `TradeTemplate` and `ScheduleMaster`. -/

/-- Modelled from the spec: one row of `tradeplan.csv` with the ten
documented columns. `plan`, `qty`, `profittarget` and `optionType` are
optional. -/
structure CsvRow where
  hourMinute : String
  premium : Rat
  spread : String
  stop : String
  strategy : String
  plan : Option String
  qty : Option Int
  profittarget : Option Rat
  optionType : Option String
  pnlRank : Nat
deriving Repr, DecidableEq

/-- Modelled from the spec: a `TradeTemplate` row of the Toolbox database. -/
structure TTRow where
  id : Nat
  name : String
  targetMax : Rat
  longWidths : String
  stopMultiple : String
  qty : Int
deriving Repr, DecidableEq

/-- Modelled from the spec: a `ScheduleMaster` row of the Toolbox database. -/
structure SMRow where
  id : Nat
  templateId : Nat
  isActive : Nat
deriving Repr, DecidableEq

/-- Modelled from the spec: the two externally owned tables the
synchronizer mutates. -/
structure Db where
  tradeTemplates : List TTRow
  scheduleMaster : List SMRow
deriving Repr, DecidableEq

/-- Modelled from the spec: the exact list of CSV column names the
synchronizer consumes, as documented in the `tradeplan2db3` README. -/
def consumedColumns : List String :=
  ["Hour:Minute", "Premium", "Spread", "Stop", "Strategy",
   "Plan", "Qty", "profittarget", "OptionType", "PnL Rank"]

/-- Modelled from the spec: the `Plan` column is optional and defaults
to `P1` when missing. -/
def effectivePlan (r : CsvRow) : String :=
  match r.plan with
  | some p => p
  | none => "P1"

/-- Modelled from the spec: the `--qty` flag sets the quantity for all
entries, so it overrides the optional `Qty` column; without the flag the
CSV column is used. -/
def effectiveQty (qtyFlag : Option Int) (r : CsvRow) : Option Int :=
  match qtyFlag with
  | some q => some q
  | none => r.qty

/-- Modelled from the spec: the naming convention `PUT SPREAD (HH:MM)`. -/
def putName (hm : String) : String := "PUT SPREAD (" ++ hm ++ ")"

/-- Modelled from the spec: the naming convention `CALL SPREAD (HH:MM)`. -/
def callName (hm : String) : String := "CALL SPREAD (" ++ hm ++ ")"

/-- Modelled from the spec: the template names a CSV row addresses.
`OptionType` `P` selects the PUT template, `C` the CALL template, and a
blank `OptionType` applies to both. -/
def keysOf (r : CsvRow) : List String :=
  match r.optionType with
  | some "P" => [putName r.hourMinute]
  | some "C" => [callName r.hourMinute]
  | _ => [putName r.hourMinute, callName r.hourMinute]

/-- Modelled from the spec: writing one CSV row's parameters into a matched
`TradeTemplate` row (`Premium` to the target, `Spread` with dashes replaced
by commas to the long widths, `Stop` to the stop multiple, and the effective
quantity). -/
def applyCsvRow (qtyFlag : Option Int) (r : CsvRow) (t : TTRow) : TTRow :=
  { t with
    targetMax := r.premium
    longWidths := r.spread.replace "-" ","
    stopMultiple := r.stop
    qty := (effectiveQty qtyFlag r).getD t.qty }

/-- Modelled from the spec: process one CSV row against the
`TradeTemplate` table: update every template whose name matches one of the
row's derived keys and collect the IDs of the templates that were updated.
A row whose keys match no record is a silent no-op lookup. -/
def processRow (qtyFlag : Option Int) (tts : List TTRow) (r : CsvRow) :
    List TTRow × List Nat :=
  (tts.map (fun t => if t.name ∈ keysOf r then applyCsvRow qtyFlag r t else t),
   (tts.filter (fun t => decide (t.name ∈ keysOf r))).map (·.id))

/-- Modelled from the spec: process all CSV rows in order, threading the
`TradeTemplate` table and accumulating the updated template IDs. -/
def processAll (qtyFlag : Option Int) :
    List TTRow → List CsvRow → List TTRow × List Nat
  | tts, [] => (tts, [])
  | tts, r :: rs =>
    let step := processRow qtyFlag tts r
    let rest := processAll qtyFlag step.1 rs
    (rest.1, step.2 ++ rest.2)

/-- Modelled from the spec: the `ScheduleMaster` pass of a standard run:
first set `IsActive = 0` on every row, then set `IsActive = 1` on the rows
whose template ID was collected while updating `TradeTemplate`. -/
def manageSchedule (sm : List SMRow) (updated : List Nat) : List SMRow :=
  (sm.map (fun s => { s with isActive := 0 })).map
    (fun s => if s.templateId ∈ updated then { s with isActive := 1 } else s)

/-- Modelled from the spec: a standard (no initialization flag) run of the
synchronizer on the database state: update `TradeTemplate` from the CSV
rows, then manage `ScheduleMaster` from the collected IDs. -/
def standardRun (qtyFlag : Option Int) (db : Db) (csv : List CsvRow) : Db :=
  let stepped := processAll qtyFlag db.tradeTemplates csv
  { tradeTemplates := stepped.1
    scheduleMaster := manageSchedule db.scheduleMaster stepped.2 }

/-! ### Trade-plan synchronizer: run trace

Modelled from the spec: the README's "Script Functionality" order is
database backup, database connection, CSV read, `TradeTemplate` updates,
`ScheduleMaster` management, commit. -/

/-- Modelled from the spec: the observable events of one synchronizer run. -/
inductive Event where
  | backupZip
  | readCsv
  | mapRow (i : Nat)
  | updateDb (i : Nat)
  | manageSM
  | commit
deriving Repr, DecidableEq

/-- Whether an event modifies a row of `TradeTemplate` or `ScheduleMaster`. -/
def Event.isMod : Event → Bool
  | .updateDb _ => true
  | .manageSM => true
  | _ => false

/-- Modelled from the spec: per-row events, row `i` is mapped to its
database keys and then written. -/
def rowEvents : List CsvRow → Nat → List Event
  | [], _ => []
  | _ :: rs, i => Event.mapRow i :: Event.updateDb i :: rowEvents rs (i + 1)

/-- Modelled from the spec: the event trace of one standard synchronizer
run: timestamped zip backup first, then CSV read, then one map/update pair
per CSV row, then the `ScheduleMaster` pass, then commit. -/
def runTrace (csv : List CsvRow) : List Event :=
  Event.backupZip :: Event.readCsv ::
    (rowEvents csv 0 ++ [Event.manageSM, Event.commit])

theorem rowEvents_length (csv : List CsvRow) (i : Nat) :
    (rowEvents csv i).length = 2 * csv.length := by
  induction csv generalizing i with
  | nil => simp [rowEvents]
  | cons r rs ih => simp [rowEvents, ih]; ring

theorem rowEvents_not_backup (csv : List CsvRow) (i : Nat) :
    Event.backupZip ∉ rowEvents csv i := by
  induction csv generalizing i with
  | nil => simp [rowEvents]
  | cons r rs ih => simp [rowEvents]; exact ih (i + 1)

theorem rowEvents_getElem (csv : List CsvRow) (k i : Nat) (h : i < csv.length) :
    (rowEvents csv k)[2 * i]? = some (Event.mapRow (k + i)) ∧
    (rowEvents csv k)[2 * i + 1]? = some (Event.updateDb (k + i)) := by
  induction csv generalizing k i with
  | nil => simp at h
  | cons r rs ih =>
    cases i with
    | zero => simp [rowEvents]
    | succ j =>
      have hj : j < rs.length := Nat.lt_of_succ_lt_succ h
      obtain ⟨ih1, ih2⟩ := ih (k + 1) j hj
      have e1 : k + (j + 1) = (k + 1) + j := by omega
      have e2 : 2 * (j + 1) = 2 * j + 1 + 1 := by ring
      have e3 : 2 * (j + 1) + 1 = 2 * j + 1 + 1 + 1 := by ring
      refine ⟨?_, ?_⟩
      · rw [e1, e2]; simpa [rowEvents] using ih1
      · rw [e1, e3]; simpa [rowEvents] using ih2

/-- A concrete CSV row used in witness statements. -/
def exRow : CsvRow :=
  { hourMinute := "13:15", premium := 2, spread := "20-25-30", stop := "1.25x",
    strategy := "EMA2040", plan := some "P1", qty := some 2,
    profittarget := some 50, optionType := some "P", pnlRank := 1 }

/-- A concrete one-row CSV input used in witness statements. -/
def exCsvOne : List CsvRow := [exRow]

/-- C1: in every standard synchronizer run, the timestamped zip backup of
the database happens before any event that modifies a row of
`TradeTemplate` or `ScheduleMaster`: the backup is the event at position 0
of the run trace and every modifying event sits at a strictly later
position. -/
theorem backup_before_any_modification (csv : List CsvRow) (j : Nat) (e : Event)
    (hj : (runTrace csv)[j]? = some e) (he : e.isMod = true) :
    (runTrace csv)[0]? = some Event.backupZip ∧ 0 < j := by
  refine ⟨rfl, ?_⟩
  rcases j with _ | j
  · have h0 : (runTrace csv)[0]? = some Event.backupZip := rfl
    rw [h0] at hj
    cases hj
    simp [Event.isMod] at he
  · omega

/-- Witness for `backup_before_any_modification` at the one-row CSV, with
the `TradeTemplate` write at trace position 3. -/
theorem backup_before_any_modification_witness :
    (runTrace exCsvOne)[0]? = some Event.backupZip ∧ 0 < 3 :=
  backup_before_any_modification exCsvOne 3 (Event.updateDb 0) (by decide) (by decide)

/-- C5 counterexample: the zip backup is not the final step of the
pipeline: on a one-row CSV the last trace event is the commit, not the
backup. -/
theorem zip_backup_not_final_step :
    ¬ (runTrace exCsvOne).getLast? = some Event.backupZip := by decide

/-- C5 (amended): the synchronizer run is a linear pipeline with no
feedback loops, in the order zip-backup writer first, then CSV reader,
then one row-map/SQL-update pair per CSV row in row order, then the
`ScheduleMaster` pass, then the commit: each step occupies a fixed
position of the trace determined by the CSV length. -/
theorem runTrace_pipeline_order (csv : List CsvRow) :
    (runTrace csv).length = 2 * csv.length + 4 ∧
    (runTrace csv)[0]? = some Event.backupZip ∧
    (runTrace csv)[1]? = some Event.readCsv ∧
    (∀ i, i < csv.length →
      (runTrace csv)[2 * i + 2]? = some (Event.mapRow i) ∧
      (runTrace csv)[2 * i + 3]? = some (Event.updateDb i)) ∧
    (runTrace csv)[2 * csv.length + 2]? = some Event.manageSM ∧
    (runTrace csv)[2 * csv.length + 3]? = some Event.commit := by
  refine ⟨?_, by rfl, by simp [runTrace], ?_, ?_, ?_⟩
  · simp [runTrace, rowEvents_length]
  · intro i hi
    obtain ⟨h1, h2⟩ := rowEvents_getElem csv 0 i hi
    have hlen : 2 * i < (rowEvents csv 0).length := by
      rw [rowEvents_length]; omega
    have hlen' : 2 * i + 1 < (rowEvents csv 0).length := by
      rw [rowEvents_length]; omega
    refine ⟨?_, ?_⟩
    · have e2 : 2 * i + 2 = 2 * i + 1 + 1 := by ring
      rw [e2]
      simp only [runTrace, List.getElem?_cons_succ]
      rw [List.getElem?_append_left hlen]
      simpa using h1
    · have e3 : 2 * i + 3 = 2 * i + 1 + 1 + 1 := by ring
      rw [e3]
      simp only [runTrace, List.getElem?_cons_succ]
      rw [List.getElem?_append_left hlen']
      simpa using h2
  · have e2 : 2 * csv.length + 2 = 2 * csv.length + 1 + 1 := by ring
    rw [e2]
    simp only [runTrace, List.getElem?_cons_succ]
    rw [List.getElem?_append_right (by rw [rowEvents_length])]
    simp [rowEvents_length]
  · have e3 : 2 * csv.length + 3 = 2 * csv.length + 1 + 1 + 1 := by ring
    rw [e3]
    simp only [runTrace, List.getElem?_cons_succ]
    rw [List.getElem?_append_right (by rw [rowEvents_length]; omega)]
    simp [rowEvents_length]

/-- Witness for `runTrace_pipeline_order` at the one-row CSV: row 0 is
mapped at position 2 and written at position 3. -/
theorem runTrace_pipeline_order_witness :
    (runTrace exCsvOne)[2 * 0 + 2]? = some (Event.mapRow 0) ∧
    (runTrace exCsvOne)[2 * 0 + 3]? = some (Event.updateDb 0) :=
  (runTrace_pipeline_order exCsvOne).2.2.2.1 0 (by decide)

theorem manageSchedule_getElem (sm : List SMRow) (u : List Nat) (i : Nat) :
    (manageSchedule sm u)[i]? = (sm[i]?).map
      (fun s => { s with isActive := if s.templateId ∈ u then 1 else 0 }) := by
  simp only [manageSchedule, List.getElem?_map]
  cases h : sm[i]? with
  | none => rfl
  | some s =>
    simp only [Option.map_some']
    by_cases hm : s.templateId ∈ u <;> simp [hm]

/-- A concrete `TradeTemplate` row used in witness statements. -/
def exTT : TTRow :=
  { id := 7, name := "PUT SPREAD (13:15)", targetMax := 1,
    longWidths := "10,15", stopMultiple := "1x", qty := 1 }

/-- A concrete `ScheduleMaster` row used in witness statements. -/
def exSM : SMRow := { id := 1, templateId := 7, isActive := 0 }

/-- A concrete database used in witness statements: one PUT template for
13:15 and one schedule row pointing at it. -/
def exDb : Db := { tradeTemplates := [exTT], scheduleMaster := [exSM] }

/-- C2: after a standard run, a `ScheduleMaster` row is active exactly when
its trade template's ID was collected while updating `TradeTemplate` from
the CSV: the run zeroes `IsActive` everywhere and then sets it to 1
precisely on the collected template IDs. -/
theorem scheduleMaster_isActive_iff (qtyFlag : Option Int) (db : Db)
    (csv : List CsvRow) (i : Nat) (s : SMRow)
    (h : (standardRun qtyFlag db csv).scheduleMaster[i]? = some s) :
    s.isActive = 1 ↔
      s.templateId ∈ (processAll qtyFlag db.tradeTemplates csv).2 := by
  have hm : (standardRun qtyFlag db csv).scheduleMaster =
      manageSchedule db.scheduleMaster
        (processAll qtyFlag db.tradeTemplates csv).2 := rfl
  rw [hm, manageSchedule_getElem] at h
  cases h0 : db.scheduleMaster[i]? with
  | none => rw [h0] at h; cases h
  | some s0 =>
    rw [h0] at h
    simp only [Option.map_some'] at h
    cases h
    by_cases hmem : s0.templateId ∈ (processAll qtyFlag db.tradeTemplates csv).2 <;>
      simp [hmem]

/-- Witness for `scheduleMaster_isActive_iff`: on the concrete database
and one-row CSV, the schedule row for template 7 comes out active and
template 7 is among the collected IDs. -/
theorem scheduleMaster_isActive_iff_witness :
    ({ id := 1, templateId := 7, isActive := 1 } : SMRow).isActive = 1 ↔
      ({ id := 1, templateId := 7, isActive := 1 } : SMRow).templateId ∈
        (processAll none exDb.tradeTemplates exCsvOne).2 :=
  scheduleMaster_isActive_iff none exDb exCsvOne 0
    { id := 1, templateId := 7, isActive := 1 } (by decide)

/-! ### The `--distribution` flag

Modelled from the spec: with `--distribution`, quantities are adjusted by
`PnL Rank`: add 1 for ranks 1 through 3, and subtract 1 for ranks 8
through 10 provided there are at least 10 entries. A row is modelled as a
`(PnL Rank, Qty)` pair at this stage. -/

/-- Modelled from the spec: the quantity adjustment of `--distribution`
for one row, given the total number `n` of CSV entries. -/
def adjQty (n : Nat) (rank : Nat) (q : Int) : Int :=
  if 1 ≤ rank ∧ rank ≤ 3 then q + 1
  else if 8 ≤ rank ∧ rank ≤ 10 ∧ 10 ≤ n then q - 1
  else q

/-- Modelled from the spec: apply the `--distribution` adjustment to every
`(PnL Rank, Qty)` row of the plan. -/
def distribute (rows : List (Nat × Int)) : List (Nat × Int) :=
  rows.map (fun p => (p.1, adjQty rows.length p.1 p.2))

/-- C3: with `--distribution` and at least 10 entries, ranks 1 through 3
gain 1, ranks 8 through 10 lose 1, and every other row keeps its
quantity; with fewer than 10 entries the rank-8-to-10 subtraction is not
applied (those rows are unchanged). -/
theorem distribute_spec (rows : List (Nat × Int)) (i : Nat) (p : Nat × Int)
    (h : rows[i]? = some p) :
    (10 ≤ rows.length →
      (distribute rows)[i]? = some (p.1,
        if 1 ≤ p.1 ∧ p.1 ≤ 3 then p.2 + 1
        else if 8 ≤ p.1 ∧ p.1 ≤ 10 then p.2 - 1
        else p.2)) ∧
    (rows.length < 10 → 8 ≤ p.1 → p.1 ≤ 10 → (distribute rows)[i]? = some p) := by
  refine ⟨?_, ?_⟩
  · intro hn
    have ha : adjQty rows.length p.1 p.2 =
        if 1 ≤ p.1 ∧ p.1 ≤ 3 then p.2 + 1
        else if 8 ≤ p.1 ∧ p.1 ≤ 10 then p.2 - 1
        else p.2 := by
      unfold adjQty; split_ifs <;> omega
    simp [distribute, List.getElem?_map, h, ha]
  · intro hn h8 h10
    have ha : adjQty rows.length p.1 p.2 = p.2 := by
      unfold adjQty; split_ifs <;> omega
    simp [distribute, List.getElem?_map, h, ha]

/-- A concrete ten-entry plan used in witness statements. -/
def exRows : List (Nat × Int) :=
  [(1, 2), (2, 2), (3, 2), (4, 2), (5, 2), (6, 2), (7, 2), (8, 2), (9, 2), (10, 2)]

/-- Witness for `distribute_spec`: in the ten-entry plan, the rank-1 row
goes from quantity 2 to 3. -/
theorem distribute_spec_witness : (distribute exRows)[0]? = some (1, 3) := by
  have h := (distribute_spec exRows 0 (1, 2) (by decide)).1 (by decide)
  simpa using h

/-- C4: a CSV row whose naming-convention-derived keys match no database
record is a silent no-op lookup: the `TradeTemplate` table is unchanged
and no template ID is collected, so no recovery action is applied. -/
theorem no_match_is_noop (qtyFlag : Option Int) (tts : List TTRow) (r : CsvRow)
    (h : ∀ t ∈ tts, t.name ∉ keysOf r) :
    processRow qtyFlag tts r = (tts, []) := by
  unfold processRow
  have h1 : tts.map
      (fun t => if t.name ∈ keysOf r then applyCsvRow qtyFlag r t else t) = tts := by
    conv_rhs => rw [← List.map_id tts]
    apply List.map_congr_left
    intro t ht
    simp [h t ht]
  have h2 : tts.filter (fun t => decide (t.name ∈ keysOf r)) = [] := by
    rw [List.filter_eq_nil_iff]
    intro t ht
    simp [h t ht]
  simp [h1, h2]

/-- A concrete template row with a name outside the naming convention. -/
def exTTOther : TTRow :=
  { id := 3, name := "IRON CONDOR (10:00)", targetMax := 1,
    longWidths := "10", stopMultiple := "2x", qty := 1 }

/-- A concrete template table with a name outside the naming convention. -/
def exTtsNoMatch : List TTRow := [exTTOther]

/-- Witness for `no_match_is_noop`: the iron-condor template is untouched
by the 13:15 PUT row and no ID is collected. -/
theorem no_match_is_noop_witness :
    processRow none exTtsNoMatch exRow = (exTtsNoMatch, []) :=
  no_match_is_noop none exTtsNoMatch exRow (by decide)

/-- C6: the synchronizer consumes exactly the ten documented CSV columns;
the `Plan` column defaults to `P1` when missing and is taken verbatim when
present; the `--qty` flag supplies the quantity for every row (so `Qty`
may be absent), and without the flag the `Qty` column is used. -/
theorem csv_columns_consumed (r : CsvRow) :
    consumedColumns = ["Hour:Minute", "Premium", "Spread", "Stop", "Strategy",
      "Plan", "Qty", "profittarget", "OptionType", "PnL Rank"] ∧
    (r.plan = none → effectivePlan r = "P1") ∧
    (∀ p, r.plan = some p → effectivePlan r = p) ∧
    (∀ q : Int, effectiveQty (some q) r = some q) ∧
    effectiveQty none r = r.qty := by
  refine ⟨rfl, ?_, ?_, ?_, rfl⟩
  · intro hp; simp [effectivePlan, hp]
  · intro p hp; simp [effectivePlan, hp]
  · intro q; rfl

/-- A concrete CSV row with `Plan` and `Qty` both absent. -/
def exRowNoPlan : CsvRow := { exRow with plan := none, qty := none }

/-- Witness for `csv_columns_consumed`: with `Plan` missing the effective
plan is `P1`, and `--qty 5` supplies quantity 5. -/
theorem csv_columns_consumed_witness :
    effectivePlan exRowNoPlan = "P1" ∧
    effectiveQty (some 5) exRowNoPlan = some 5 :=
  ⟨(csv_columns_consumed exRowNoPlan).2.1 rfl,
   (csv_columns_consumed exRowNoPlan).2.2.2.1 5⟩

/-! ### Heatmap notebooks (`TAT_EMA520_V3.ipynb` / `TAT_EMA520_V5.ipynb`)

Embedded from the notebook code. A dataframe is a list of rows; a
timestamp is minutes since an epoch (one day is 1440 minutes, so
`pd.DateOffset(days=d)` is `1440 * d` minutes and `strftime('%H:%M')` is
the rendering of the minute-of-day). A pandas function that mutates its
argument dataframe is embedded as returning the pair (result, dataframe
state after the call). -/

/-- One row of the `Trades.csv` dataframe: the `EntryTime` timestamp in
minutes, the `ProfitLossAfterSlippage` value, and the (initially absent)
`EntryHourMinute` column. -/
structure TRow where
  entryTime : Int
  profitLossAfterSlippage : Rat
  entryHourMinute : Option String := none
deriving Repr, DecidableEq

/-- Two-digit zero-padded rendering of a number below 100. -/
def pad2 (n : Nat) : String :=
  if n < 10 then "0" ++ toString n else toString n

/-- Embedded `strftime('%H:%M')`: the `HH:MM` rendering of a timestamp's
minute of day. -/
def fmtHHMM (t : Int) : String :=
  let m := (t.emod 1440).toNat
  pad2 (m / 60) ++ ":" ++ pad2 (m % 60)

/-- Embedded `df['EntryTime'].max()`. -/
def maxEntryTime : List TRow → Int
  | [] => 0
  | [r] => r.entryTime
  | r :: rs => max r.entryTime (maxEntryTime rs)

theorem le_maxEntryTime {df : List TRow} {r : TRow} (h : r ∈ df) :
    r.entryTime ≤ maxEntryTime df := by
  induction df with
  | nil => cases h
  | cons a l ih =>
    cases l with
    | nil =>
      rcases List.mem_cons.mp h with h | h
      · subst h; exact le_refl _
      · cases h
    | cons b l' =>
      rcases List.mem_cons.mp h with h | h
      · subst h; exact le_max_left _ _
      · exact le_trans (ih h) (le_max_right _ _)

/-! Generic stable insertion sort by a Boolean comparator, with the
permutation and sortedness lemmas needed below. -/

/-- Insert `a` into `l`, placing it before the first element `b` with
`r a b`. -/
def insertBy (r : α → α → Bool) (a : α) : List α → List α
  | [] => [a]
  | b :: l => if r a b then a :: b :: l else b :: insertBy r a l

/-- Insertion sort by the comparator `r`. -/
def sortBy (r : α → α → Bool) : List α → List α
  | [] => []
  | a :: l => insertBy r a (sortBy r l)

theorem perm_insertBy (r : α → α → Bool) (a : α) (l : List α) :
    List.Perm (insertBy r a l) (a :: l) := by
  induction l with
  | nil => rfl
  | cons b l ih =>
    simp only [insertBy]
    split
    · rfl
    · exact (ih.cons b).trans (List.Perm.swap a b l)

theorem perm_sortBy (r : α → α → Bool) (l : List α) :
    List.Perm (sortBy r l) l := by
  induction l with
  | nil => rfl
  | cons a l ih => exact (perm_insertBy r a (sortBy r l)).trans (ih.cons a)

theorem pairwise_insertBy (r : α → α → Bool)
    (htot : ∀ a b, r a b = false → r b a = true)
    (htrans : ∀ a b c, r a b = true → r b c = true → r a c = true)
    (a : α) (l : List α) (hl : l.Pairwise (fun x y => r x y = true)) :
    (insertBy r a l).Pairwise (fun x y => r x y = true) := by
  induction l with
  | nil => simp [insertBy]
  | cons b l ih =>
    rcases List.pairwise_cons.mp hl with ⟨hb, hl'⟩
    simp only [insertBy]
    by_cases hab : r a b = true
    · rw [if_pos hab]
      refine List.pairwise_cons.mpr ⟨?_, hl⟩
      intro x hx
      rcases List.mem_cons.mp hx with hx | hx
      · subst hx; exact hab
      · exact htrans a b x hab (hb x hx)
    · rw [if_neg hab]
      refine List.pairwise_cons.mpr ⟨?_, ih hl'⟩
      intro x hx
      have hx' := (perm_insertBy r a l).mem_iff.mp hx
      rcases List.mem_cons.mp hx' with hx' | hx'
      · rw [hx']
        exact htot a b (Bool.eq_false_iff.mpr hab)
      · exact hb x hx'

theorem pairwise_sortBy (r : α → α → Bool)
    (htot : ∀ a b, r a b = false → r b a = true)
    (htrans : ∀ a b c, r a b = true → r b c = true → r a c = true)
    (l : List α) :
    (sortBy r l).Pairwise (fun x y => r x y = true) := by
  induction l with
  | nil => simp [sortBy]
  | cons a l ih => exact pairwise_insertBy r htot htrans a (sortBy r l) ih

/-- Embedded pandas groupby-sum accumulator: add `v` to the total of
`key`, keeping first-occurrence key order. -/
def addTotal : List (String × Rat) → String → Rat → List (String × Rat)
  | [], key, v => [(key, v)]
  | (k, s) :: rest, key, v =>
    if k = key then (k, s + v) :: rest else (k, s) :: addTotal rest key v

/-- Embedded
`df.groupby('EntryHourMinute')['ProfitLossAfterSlippage'].sum()*100`. -/
def profitPerTime (df : List TRow) : List (String × Rat) :=
  (df.foldl (fun acc r =>
      addTotal acc (r.entryHourMinute.getD "") r.profitLossAfterSlippage) []).map
    (fun p => (p.1, p.2 * 100))

/-- Embedded `df['EntryHourMinute'] = df['EntryTime'].dt.strftime('%H:%M')`:
the in-place column write both notebooks perform. -/
def addHourMinute (df : List TRow) : List TRow :=
  df.map (fun r => { r with entryHourMinute := some (fmtHHMM r.entryTime) })

/-- The comparator of `sort_values(ascending=False)` on series values. -/
def valDesc (p q : String × Rat) : Bool := decide (q.2 ≤ p.2)

/-- The comparator of `sort_values('EntryHourMinute')`: `HH:MM` strings
compare lexicographically exactly as times. -/
def keyAsc (p q : String × Rat) : Bool := decide (p.1 ≤ q.1)

/-- Descending comparator on plain rationals. -/
def ratDesc (a b : Rat) : Bool := decide (b ≤ a)

theorem valDesc_total (p q : String × Rat) (h : valDesc p q = false) :
    valDesc q p = true := by
  simp only [valDesc, decide_eq_false_iff_not] at h
  simpa [valDesc] using le_of_not_le h

theorem valDesc_trans (p q u : String × Rat) (h1 : valDesc p q = true)
    (h2 : valDesc q u = true) : valDesc p u = true := by
  simp only [valDesc, decide_eq_true_eq] at h1 h2 ⊢
  exact le_trans h2 h1

theorem ratDesc_total (a b : Rat) (h : ratDesc a b = false) :
    ratDesc b a = true := by
  simp only [ratDesc, decide_eq_false_iff_not] at h
  simpa [ratDesc] using le_of_not_le h

theorem ratDesc_trans (a b c : Rat) (h1 : ratDesc a b = true)
    (h2 : ratDesc b c = true) : ratDesc a c = true := by
  simp only [ratDesc, decide_eq_true_eq] at h1 h2 ⊢
  exact le_trans h2 h1

/-- Sorting pairs by descending value and then projecting the values is
the same as projecting first and sorting the rationals descending: both
sides are sorted under the antisymmetric relation `b ≤ a` and are
permutations of the same list. -/
theorem map_snd_sortBy_valDesc (ps : List (String × Rat)) :
    (sortBy valDesc ps).map (fun p => p.2) =
      sortBy ratDesc (ps.map (fun p => p.2)) := by
  have hperm : List.Perm ((sortBy valDesc ps).map (fun p => p.2))
      (sortBy ratDesc (ps.map (fun p => p.2))) :=
    ((perm_sortBy valDesc ps).map (fun p => p.2)).trans
      (perm_sortBy ratDesc (ps.map (fun p => p.2))).symm
  have hs1 : ((sortBy valDesc ps).map (fun p => p.2)).Pairwise
      (fun a b : Rat => b ≤ a) := by
    refine List.Pairwise.map _ ?_ (pairwise_sortBy valDesc valDesc_total valDesc_trans ps)
    intro a b hab
    simpa [valDesc] using hab
  have hs2 : (sortBy ratDesc (ps.map (fun p => p.2))).Pairwise
      (fun a b : Rat => b ≤ a) := by
    refine (pairwise_sortBy ratDesc ratDesc_total ratDesc_trans _).imp ?_
    intro a b hab
    simpa [ratDesc] using hab
  exact List.eq_of_perm_of_sorted hperm hs1 hs2

/-- Embedded Python `round(x, 2)` on the rational model. -/
def round2 (x : Rat) : Rat := ((round (x * 100) : ℤ) : Rat) / 100

/-- The claim side of C10: the sum of the `n` largest entries of a list of
rationals. -/
def sumTopN (n : Nat) (l : List Rat) : Rat := ((sortBy ratDesc l).take n).sum

/-- The number of distinct trading days (`EntryDate` values) present in a
dataframe. -/
def distinctTradingDays (df : List TRow) : Nat :=
  (df.map (fun r => r.entryTime.ediv 1440)).dedup.length

/-- Embedded from the notebook: `filter_data(df, days)` keeps the rows
with `EntryTime` between `max(EntryTime) - days` days and `max(EntryTime)`
inclusive and returns them as a `.copy()`; the pair is (returned
dataframe, state of the input dataframe after the call). -/
def filter_data (df : List TRow) (days : Nat) : List TRow × List TRow :=
  let end_date := maxEntryTime df
  let start_date := end_date - 1440 * (days : Int)
  (df.filter (fun r =>
      decide (start_date ≤ r.entryTime) && decide (r.entryTime ≤ end_date)), df)

/-- Embedded from the notebook: `rank_trading_times(df)` writes the
`EntryHourMinute` column in place (no `.copy()`), totals the scaled profit
per entry time and returns it sorted descending; the pair is (returned
series, dataframe state after the call). -/
def rank_trading_times (df : List TRow) : List (String × Rat) × List TRow :=
  let df2 := addHourMinute df
  (sortBy valDesc (profitPerTime df2), df2)

/-- Embedded from the V5 notebook:
`top_trading_times_and_avg_profit_per_day(df, n)`: writes the
`EntryHourMinute` column in place, takes the `n` largest scaled per-time
totals, re-sorts them by entry time for display, joins the times with
" ; ", and divides the profit sum by the enclosing loop's global `days`
(passed explicitly here), rounded to two decimals; the pair is
((time string, average), dataframe state after the call). -/
def top_trading_times_and_avg_profit_per_day (df : List TRow) (n : Nat)
    (days : Nat) : (String × Rat) × List TRow :=
  let df2 := addHourMinute df
  let top_times := (sortBy valDesc (profitPerTime df2)).take n
  let top_sorted := sortBy keyAsc top_times
  let time_str := String.intercalate " ; " (top_sorted.map (fun p => p.1))
  let avg := round2 ((top_sorted.map (fun p => p.2)).sum / (days : Rat))
  ((time_str, avg), df2)

/-- C8: `filter_data(df, days)` returns exactly the rows whose `EntryTime`
lies in the closed interval from `max(EntryTime)` minus `days` days to
`max(EntryTime)`, both endpoints inclusive, and leaves the input dataframe
unmodified (it returns a copy). -/
theorem filter_data_spec (df : List TRow) (days : Nat) :
    (∀ r : TRow, r ∈ (filter_data df days).1 ↔
      r ∈ df ∧ maxEntryTime df - 1440 * (days : Int) ≤ r.entryTime ∧
        r.entryTime ≤ maxEntryTime df) ∧
    (filter_data df days).2 = df := by
  refine ⟨?_, rfl⟩
  intro r
  simp [filter_data, List.mem_filter, and_assoc]

/-- One row of the concrete dataframe used in witnesses: 09:33 on day 0. -/
def exTRow : TRow := { entryTime := 573, profitLossAfterSlippage := 5 }

/-- Second row of the concrete dataframe: 10:00 on day 1. -/
def exTRow2 : TRow := { entryTime := 2040, profitLossAfterSlippage := -2 }

/-- A concrete two-row dataframe spanning two trading days. -/
def exTDf : List TRow := [exTRow, exTRow2]

/-- C9: `rank_trading_times` mutates its input dataframe: afterwards every
row carries `EntryHourMinute` equal to the `HH:MM` rendering of its
`EntryTime`, while `EntryTime`, `ProfitLossAfterSlippage` and the number
of rows are unchanged; and unlike `filter_data` it takes no copy, as the
concrete dataframe shows. -/
theorem rank_trading_times_mutates (df : List TRow) (i : Nat) (r : TRow)
    (h : df[i]? = some r) :
    (rank_trading_times df).2.length = df.length ∧
    (rank_trading_times df).2[i]? = some
      { entryTime := r.entryTime,
        profitLossAfterSlippage := r.profitLossAfterSlippage,
        entryHourMinute := some (fmtHHMM r.entryTime) } ∧
    (rank_trading_times exTDf).2 ≠ exTDf := by
  refine ⟨by simp [rank_trading_times, addHourMinute], ?_, by decide⟩
  simp [rank_trading_times, addHourMinute, List.getElem?_map, h]

/-- Witness for `rank_trading_times_mutates` at the concrete dataframe:
row 0 comes back with `EntryHourMinute = "09:33"` and its other columns
intact. -/
theorem rank_trading_times_mutates_witness :
    (rank_trading_times exTDf).2[0]? = some
      { entryTime := 573, profitLossAfterSlippage := 5,
        entryHourMinute := some "09:33" } :=
  (rank_trading_times_mutates exTDf 0 exTRow (by decide)).2.1

/-- C10: the V5 average profit per day equals the sum of the `n` largest
scaled per-entry-time totals divided by the enclosing loop's `days`
variable, rounded to two decimals; at the concrete two-day dataframe this
differs from dividing by the number of distinct trading days present. -/
theorem avg_profit_per_day_spec (df : List TRow) (n days : Nat) :
    (top_trading_times_and_avg_profit_per_day df n days).1.2 =
      round2 (sumTopN n ((profitPerTime (addHourMinute df)).map (fun p => p.2)) /
        (days : Rat)) ∧
    (top_trading_times_and_avg_profit_per_day exTDf 1 5).1.2 ≠
      round2 (sumTopN 1 ((profitPerTime (addHourMinute exTDf)).map (fun p => p.2)) /
        (distinctTradingDays exTDf : Rat)) := by
  refine ⟨?_, ?_⟩
  · have hsum : ((sortBy keyAsc ((sortBy valDesc (profitPerTime (addHourMinute df))).take n)).map
          (fun p => p.2)).sum =
        (((sortBy valDesc (profitPerTime (addHourMinute df))).take n).map
          (fun p => p.2)).sum :=
      ((perm_sortBy keyAsc _).map (fun p => p.2)).sum_eq
    simp only [top_trading_times_and_avg_profit_per_day, sumTopN]
    rw [hsum, List.map_take, map_snd_sortBy_valDesc]
  · have h1 : addHourMinute exTDf =
        [{ entryTime := 573, profitLossAfterSlippage := 5, entryHourMinute := some "09:33" },
         { entryTime := 2040, profitLossAfterSlippage := -2, entryHourMinute := some "10:00" }] := by
      decide
    rw [show (top_trading_times_and_avg_profit_per_day exTDf 1 5).1.2 =
        round2 (((sortBy keyAsc ((sortBy valDesc (profitPerTime (addHourMinute exTDf))).take 1)).map
          (fun p => p.2)).sum / (5 : Rat)) from rfl]
    rw [h1]
    norm_num [profitPerTime, addTotal, sortBy, insertBy, valDesc, keyAsc, ratDesc,
      sumTopN, round2, distinctTradingDays, exTDf, exTRow, exTRow2, round_eq]

/-! ### Output artifacts of the V5 notebook -/

/-- The `days_list` of the V5 notebook run. -/
def days_list : List Nat := [90, 60, 45, 30, 20, 15, 10, 5]

/-- Embedded from the V5 notebook: the files one run writes, in write
order: one `heatmap_<d>_days.png` per entry of `days_list`, the all-data
heatmap, the date/time heatmap, the day-of-week/time heatmap, the HTML
report, and the zip archive of the PNGs and the HTML. -/
def v5WrittenFiles (ds : List Nat) : List String :=
  ds.map (fun d => "heatmap_" ++ toString d ++ "_days.png") ++
    ["heatmap_all_data.png", "heatmap_date_time.png",
     "heatmap_dayofweek_time.png", "heatmap_report.html", "archive.zip"]

/-- C7 counterexample: the heatmap notebook does not write a single output
artifact: a run over the default `days_list` writes 13 files, not 1. -/
theorem notebook_not_single_output :
    ¬ (v5WrittenFiles days_list).length = 1 := by decide

/-- C7 (amended): the heatmap notebook writes one PNG per entry of
`days_list` plus three further PNGs, one HTML report and one zip archive —
`days_list.length + 5` artifacts, 13 for the default list, with exactly
one HTML report among them — rather than a single output artifact. -/
theorem notebook_output_artifacts (ds : List Nat) :
    (v5WrittenFiles ds).length = ds.length + 5 ∧
    (v5WrittenFiles days_list).length = 13 ∧
    (v5WrittenFiles days_list).count "heatmap_report.html" = 1 := by
  refine ⟨?_, by decide, by decide⟩
  simp [v5WrittenFiles]

end Tat
